import Mathlib

/-!
Shallow embedding of `src/mike/versions.py` (multi-project fork of mike's
version registry).

The Python module is dynamically typed; several methods call helpers with a
wrong arity or access attributes that the receiver does not have.  The
embedding models those dynamic failures explicitly: `PyErr` is the type of
raised Python exceptions, and every place where the source raises (including
`TypeError` from a miscalled method and `AttributeError` from an attribute
access on a value of the wrong type) is an explicit `.error` in the
corresponding Lean definition, annotated with the Python expression that
raises.

Mutating methods of the source mutate `self` in place, and a raised exception
leaves the mutations performed so far in place.  Such methods are embedded as
functions returning `State × Except PyErr Result`: the first component is the
state of the object when the method returns or raises.
-/

/-- Python exception values raised by the embedded code (messages abbreviated,
without the quote characters of the Python originals). -/
inductive PyErr where
  | valueError (msg : String)
  | keyError (key : String)
  | typeError (msg : String)
  | attributeError (attr : String)
  | indexError (msg : String)
  deriving DecidableEq, Repr

/-- JSON-compatible Python values: the inputs of `from_json`, the outputs of
`to_json` and the `properties` payload of a version entry.  (Floats are not
needed by any embedded code path and are omitted.) -/
inductive PyVal where
  | none
  | bool (b : Bool)
  | int (n : Int)
  | str (s : String)
  | list (xs : List PyVal)
  | dict (xs : List (String × PyVal))
  deriving Repr

/-- Python truthiness of a `PyVal` (`if self.properties:` in `to_json`). -/
def PyVal.truthy : PyVal → Bool
  | .none => false
  | .bool b => b
  | .int n => n != 0
  | .str s => s ≠ ""
  | .list xs => !xs.isEmpty
  | .dict xs => !xs.isEmpty

mutual

/-- Decidable structural equality for `PyVal` (Python `==` on JSON data). -/
def PyVal.beq : PyVal → PyVal → Bool
  | .none, .none => true
  | .bool a, .bool b => a == b
  | .int a, .int b => a == b
  | .str a, .str b => a == b
  | .list a, .list b => PyVal.beqList a b
  | .dict a, .dict b => PyVal.beqDict a b
  | _, _ => false

def PyVal.beqList : List PyVal → List PyVal → Bool
  | [], [] => true
  | a :: as, b :: bs => PyVal.beq a b && PyVal.beqList as bs
  | _, _ => false

def PyVal.beqDict : List (String × PyVal) → List (String × PyVal) → Bool
  | [], [] => true
  | (ka, va) :: as, (kb, vb) :: bs => ka == kb && PyVal.beq va vb && PyVal.beqDict as bs
  | _, _ => false

end

mutual

theorem PyVal.beq_iff : ∀ a b : PyVal, PyVal.beq a b = true ↔ a = b
  | .none, .none => by simp [PyVal.beq]
  | .bool a, .bool b => by simp [PyVal.beq]
  | .int a, .int b => by simp [PyVal.beq]
  | .str a, .str b => by simp [PyVal.beq]
  | .list a, .list b => by
      simpa [PyVal.beq] using PyVal.beqList_iff a b
  | .dict a, .dict b => by
      simpa [PyVal.beq] using PyVal.beqDict_iff a b
  | .none, .bool _ | .none, .int _ | .none, .str _ | .none, .list _ | .none, .dict _
  | .bool _, .none | .bool _, .int _ | .bool _, .str _ | .bool _, .list _ | .bool _, .dict _
  | .int _, .none | .int _, .bool _ | .int _, .str _ | .int _, .list _ | .int _, .dict _
  | .str _, .none | .str _, .bool _ | .str _, .int _ | .str _, .list _ | .str _, .dict _
  | .list _, .none | .list _, .bool _ | .list _, .int _ | .list _, .str _ | .list _, .dict _
  | .dict _, .none | .dict _, .bool _ | .dict _, .int _ | .dict _, .str _ | .dict _, .list _ =>
      by simp [PyVal.beq]

theorem PyVal.beqList_iff : ∀ a b : List PyVal, PyVal.beqList a b = true ↔ a = b
  | [], [] => by simp [PyVal.beqList]
  | a :: as, b :: bs => by
      simp [PyVal.beqList, PyVal.beq_iff a b, PyVal.beqList_iff as bs]
  | [], _ :: _ => by simp [PyVal.beqList]
  | _ :: _, [] => by simp [PyVal.beqList]

theorem PyVal.beqDict_iff : ∀ a b : List (String × PyVal), PyVal.beqDict a b = true ↔ a = b
  | [], [] => by simp [PyVal.beqDict]
  | (ka, va) :: as, (kb, vb) :: bs => by
      simp [PyVal.beqDict, PyVal.beq_iff va vb, PyVal.beqDict_iff as bs, Prod.ext_iff,
        and_assoc]
  | [], _ :: _ => by simp [PyVal.beqDict]
  | _ :: _, [] => by simp [PyVal.beqDict]

end

instance : DecidableEq PyVal := fun a b =>
  decidable_of_iff (PyVal.beq a b = true) (PyVal.beq_iff a b)

/-! ### Python `dict` as an insertion-ordered association list -/

/-- `k in d` for a Python dict. -/
def alistContains (l : List (String × α)) (k : String) : Bool :=
  l.any (fun p => p.1 == k)

/-- `d.get(k)` / `d[k]` lookup (first binding; keys are unique by
construction). -/
def alistGet? (l : List (String × α)) (k : String) : Option α :=
  (l.find? (fun p => p.1 == k)).map (·.2)

/-- `d[k] = v`: replace the value of an existing key in place, otherwise
append the new binding (Python dicts preserve insertion order). -/
def alistSet (l : List (String × α)) (k : String) (v : α) : List (String × α) :=
  match l with
  | [] => [(k, v)]
  | (k', v') :: rest =>
      if k' == k then (k, v) :: rest else (k', v') :: alistSet rest k v

/-- Apply `f` to the value of an existing key, leaving other bindings alone. -/
def alistModify (l : List (String × α)) (k : String) (f : α → α) : List (String × α) :=
  match l with
  | [] => []
  | (k', v') :: rest =>
      if k' == k then (k', f v') :: rest else (k', v') :: alistModify rest k f

/-! ### VersionInfo (`src/mike/versions.py` lines 14-93) -/

/-- `VersionInfo._check_version`: a version or alias string is valid unless it
is empty, `.` or `..`, or contains a path separator (`re.search` for a
backslash or forward slash). -/
def versionStringOk (s : String) : Bool :=
  !(s == "" || s == "." || s == ".." || s.data.contains '/' || s.data.contains '\\')

/-- A registry entry.  `version` is the string form of the identifier (the
`LooseVersion` wrapper of the source only affects ordering, which — see
`Versions.iterList` — is never reached); `aliases` is the Python `set`;
`properties` is the opaque JSON payload (`None` when absent).  Structure
equality coincides with the source's `__eq__` (version string, title, alias
set, properties). -/
structure VersionInfo where
  version : String
  title : String
  aliases : Finset String
  properties : PyVal
  deriving DecidableEq

/-- `VersionInfo.__init__(version, title=None, aliases=[], properties=None)`:
validates the version and every alias, defaults the title to the version
string, builds the alias set, and rejects a version that is its own alias. -/
def VersionInfo.init (version : String) (title : Option String)
    (aliases : List String) (properties : PyVal) : Except PyErr VersionInfo :=
  if !versionStringOk version then
    .error (.valueError s!"{version} is not a valid version")
  else
    match aliases.find? (fun a => !versionStringOk a) with
    | some a => .error (.valueError s!"{a} is not a valid alias")
    | Option.none =>
        let info : VersionInfo :=
          { version := version, title := title.getD version,
            aliases := aliases.toFinset, properties := properties }
        if info.version ∈ info.aliases then
          .error (.valueError "duplicated version and alias")
        else
          .ok info

/-- `VersionInfo.update(title=None, aliases=[])`.  The method mutates `self`
in place, so the embedding returns the state of the entry alongside the
result: validation of the aliases happens first (entry untouched on that
failure), then `self.title` is assigned when `title` is not `None`, and only
afterwards is the duplicated-version check made — so the title assignment
survives that failure.  On success the new aliases are unioned in and the
set of genuinely new aliases is returned. -/
def VersionInfo.update (info : VersionInfo) (title : Option String)
    (aliases : List String) : VersionInfo × Except PyErr (Finset String) :=
  match aliases.find? (fun a => !versionStringOk a) with
  | some a => (info, .error (.valueError s!"{a} is not a valid alias"))
  | Option.none =>
      let info := match title with
        | some t => { info with title := t }
        | Option.none => info
      let aliasSet := aliases.toFinset
      if info.version ∈ aliasSet then
        (info, .error (.valueError "duplicated version and alias"))
      else
        ({ info with aliases := info.aliases ∪ aliasSet },
         .ok (aliasSet \ info.aliases))

/-- The list `list(self.aliases)` of a Python set has no specified order; the
embedding fixes the ascending order (an insertion sort of any representative
of the underlying multiset, well defined because sorting is
permutation-invariant). -/
def multisetAscList (m : Multiset String) : List String :=
  Quot.liftOn m (fun l => l.insertionSort (· ≤ ·)) (fun a b h =>
    List.eq_of_perm_of_sorted
      (((a.perm_insertionSort (· ≤ ·)).trans h).trans
        (b.perm_insertionSort (· ≤ ·)).symm)
      (List.sorted_insertionSort (· ≤ ·) a) (List.sorted_insertionSort (· ≤ ·) b))

/-- `list(aliases)` for the alias set of an entry. -/
def aliasList (s : Finset String) : List String :=
  multisetAscList s.val

/-- `VersionInfo.to_json`: a JSON object with `version`, `title` and
`aliases`; `properties` is added only when it is truthy. -/
def VersionInfo.to_json (info : VersionInfo) : PyVal :=
  let base := [("version", PyVal.str info.version),
               ("title", PyVal.str info.title),
               ("aliases", PyVal.list ((aliasList info.aliases).map PyVal.str))]
  .dict (if info.properties.truthy then base ++ [("properties", info.properties)] else base)

/-- All-strings view of a JSON array (the shape `to_json` emits for
`aliases`). -/
def pyStrList? : List PyVal → Option (List String)
  | [] => some []
  | .str s :: rest => (pyStrList? rest).map (s :: ·)
  | _ => Option.none

/-- `VersionInfo.from_json(data)`: reads `data['version']`, `data['title']`,
`data['aliases']` (a `KeyError` when one is absent) and `data.get('properties')`
and calls the constructor.  Fields are typed as the shapes `to_json` emits
(string version and aliases; string or null title, a null selecting the
default); other dynamic shapes fail inside the constructor or its regex in
Python and are embedded as a `TypeError`. -/
def VersionInfo.from_json (data : PyVal) : Except PyErr VersionInfo :=
  match data with
  | .dict d =>
      match alistGet? d "version" with
      | Option.none => .error (.keyError "version")
      | some ver =>
          match alistGet? d "title" with
          | Option.none => .error (.keyError "title")
          | some ttl =>
              match alistGet? d "aliases" with
              | Option.none => .error (.keyError "aliases")
              | some als =>
                  let props := (alistGet? d "properties").getD .none
                  match ver, ttl, als with
                  | .str v, .str t, .list as =>
                      match pyStrList? as with
                      | some aliases => VersionInfo.init v (some t) aliases props
                      | Option.none => .error (.typeError "alias is not a string")
                  | .str v, .none, .list as =>
                      match pyStrList? as with
                      | some aliases => VersionInfo.init v Option.none aliases props
                      | Option.none => .error (.typeError "alias is not a string")
                  | _, _, _ => .error (.typeError "unexpected field shape")
  | _ => .error (.typeError "data is not a JSON object")

/-! ### Versions (`src/mike/versions.py` lines 96-240) -/

/-- The result tuples of `Versions.find`: the 1-tuple `(identifier,)` or the
2-tuple `(owner, identifier)`. -/
inductive FindKey where
  | primary (identifier : String)
  | pair (owner identifier : String)
  deriving DecidableEq, Repr

/-- `key[0]` of a find result tuple. -/
def FindKey.fst : FindKey → String
  | .primary identifier => identifier
  | .pair owner _ => owner

/-- `len(key)` of a find result tuple. -/
def FindKey.len : FindKey → Nat
  | .primary _ => 1
  | .pair _ _ => 2

/-- The registry: `self._data` maps component name → (identifier string →
entry), both levels insertion-ordered Python dicts. -/
structure Versions where
  data : List (String × List (String × VersionInfo))
  deriving DecidableEq

/-- `Versions.__init__`: the empty registry. -/
def Versions.init : Versions := ⟨[]⟩

/-- `Versions.find(self, identifier, strict=False)` (lines 140-149).  Note
the method has NO `component` parameter.  It first tests `identifier` against
the keys of `self._data` — which are the component names — and returns the
1-tuple on a hit.  Otherwise the loop `for k, v in self._data.items()`
evaluates `identifier in v.aliases` where `v` is a per-component version
dict, which has no `aliases` attribute: for a nonempty registry the first
iteration raises `AttributeError`.  On an empty registry the loop is skipped
and the strict/None tail runs. -/
def Versions.findPy (vs : Versions) (identifier : String) (strict : Bool) :
    Except PyErr (Option FindKey) :=
  if alistContains vs.data identifier then
    .ok (some (.primary identifier))
  else if !vs.data.isEmpty then
    .error (.attributeError "aliases")
  else if strict then
    .error (.keyError identifier)
  else
    .ok Option.none

/-- The internal call pattern `self.find(component, x)` (lines 155 and 163):
`find` has parameters `(identifier, strict)`, so `component` binds to
`identifier` and the string `x` binds to `strict`, which is truthy exactly
when `x` is nonempty. -/
def Versions.find_two_positional (vs : Versions) (component x : String) :
    Except PyErr (Option FindKey) :=
  vs.findPy component (x != "")

/-- The internal call pattern `self.find(component, x, strict=True)`
(lines 201, 225, 234): the two positional arguments already fill both
parameters `identifier` and `strict`, and the keyword `strict=True` then
duplicates the second one, so Python raises `TypeError` before `find`
runs. -/
def find_strict_call_error : PyErr :=
  .typeError "find got multiple values for argument strict"

/-- `Versions._ensure_unique_aliases(self, component, version, aliases,
update_aliases=False)` (lines 151-171), including its two miscalls of
`find` (see `Versions.find_two_positional`). -/
def Versions.ensure_unique_aliases (vs : Versions) (component version : String)
    (aliases : List String) (update_aliases : Bool) :
    Except PyErr (List FindKey) := do
  let key ← vs.find_two_positional component version
  let start : List FindKey ←
    match key with
    | some k =>
        if k.len == 2 then
          if !update_aliases then
            .error (.valueError s!"Version {version} already exists in component {component}")
          else
            pure [k]
        else
          pure []
    | Option.none => pure []
  aliases.foldlM (fun acc al => do
    let key ← vs.find_two_positional component al
    match key with
    | some k =>
        if k.fst != version then
          if k.len == 1 then
            .error (.valueError
              s!"Alias {al} is already specified as a version in component {component}")
          else if !update_aliases then
            .error (.valueError
              s!"Alias {al} already exists for version {k.fst} in component {component}")
          else
            pure (acc ++ [k])
        else
          pure acc
    | Option.none => pure acc) start

/-- The loop `for i in removed_aliases:
self._data[component][i[0]].aliases.remove(i[1])` of `add` (lines 194-195):
`i[1]` on a 1-tuple raises IndexError, `set.remove` of an absent element
raises KeyError, and mutations made before a raise stay applied. -/
def Versions.stripRemoved (vs : Versions) (component : String) :
    List FindKey → Versions × Option PyErr
  | [] => (vs, Option.none)
  | .primary _ :: _ => (vs, some (.indexError "tuple index out of range"))
  | .pair owner al :: rest =>
      match alistGet? vs.data component with
      | Option.none => (vs, some (.keyError component))
      | some bucket =>
          match alistGet? bucket owner with
          | Option.none => (vs, some (.keyError owner))
          | some info =>
              if al ∈ info.aliases then
                Versions.stripRemoved
                  ⟨alistModify vs.data component (fun b =>
                    alistSet b owner { info with aliases := info.aliases.erase al })⟩
                  component rest
              else
                (vs, some (.keyError al))

/-- `Versions.add(self, component, version, title=None, aliases=[],
update_aliases=False)` (lines 174-197).  The component bucket is created
before the uniqueness check, so it persists when the check raises; the two
debug `print` calls are console output only and are not modelled.  When the
version already exists the stored entry's `update` runs (its in-place
mutations persist even when it raises); otherwise a fresh entry is
constructed; finally the recorded aliases are stripped and the stored entry
is returned. -/
def Versions.add (vs : Versions) (component version : String) (title : Option String)
    (aliases : List String) (update_aliases : Bool) :
    Versions × Except PyErr VersionInfo :=
  let v := version
  let vs : Versions :=
    ⟨if alistContains vs.data component then vs.data else alistSet vs.data component []⟩
  match vs.ensure_unique_aliases component v aliases update_aliases with
  | .error e => (vs, .error e)
  | .ok removed =>
      let bucket := (alistGet? vs.data component).getD []
      let afterStore : Versions × Option PyErr :=
        match alistGet? bucket v with
        | some info =>
            let (info', res) := info.update title aliases
            let vs' : Versions :=
              ⟨alistModify vs.data component (fun b => alistSet b v info')⟩
            match res with
            | .error e => (vs', some e)
            | .ok _ => (vs', Option.none)
        | Option.none =>
            match VersionInfo.init version title aliases .none with
            | .error e => (vs, some e)
            | .ok info =>
                (⟨alistModify vs.data component (fun b => alistSet b v info)⟩,
                 Option.none)
      match afterStore with
      | (vs', some e) => (vs', .error e)
      | (vs', Option.none) =>
          match vs'.stripRemoved component removed with
          | (vs'', some e) => (vs'', .error e)
          | (vs'', Option.none) =>
              match alistGet? ((alistGet? vs''.data component).getD []) v with
              | some info => (vs'', .ok info)
              | Option.none => (vs'', .error (.keyError v))

/-- `Versions.update(self, component, identifier, ...)` (lines 200-212): the
first statement is `self.find(component, identifier, strict=True)`, which
raises `TypeError` at the call (see `find_strict_call_error`), so the method
always fails with the registry untouched. -/
def Versions.update (vs : Versions) (component identifier : String)
    (title : Option String) (aliases : List String) (update_aliases : Bool) :
    Versions × Except PyErr (Finset String) :=
  (vs, .error find_strict_call_error)

/-- `Versions.remove(self, component, identifier)` (lines 224-230): the first
statement is `self.find(component, identifier, strict=True)`, which raises
`TypeError` at the call, so the method always fails with the registry
untouched.  (Were that fixed, the final `self._remove_by_key(component, key)`
passes two arguments to the one-parameter `_remove_by_key` — another
`TypeError`.) -/
def Versions.remove (vs : Versions) (component identifier : String) :
    Versions × Except PyErr Unit :=
  (vs, .error find_strict_call_error)

/-- `Versions.difference_update(self, component, identifiers)`
(lines 233-240): the list comprehension evaluates
`self.find(component, i, strict=True)` for each identifier, and the first
evaluation raises `TypeError` at the call.  With an empty identifier list the
comprehension is empty, the `any` check passes, and no removal happens. -/
def Versions.difference_update (vs : Versions) (component : String)
    (identifiers : List String) : Versions × Except PyErr (List Unit) :=
  if identifiers.isEmpty then (vs, .ok [])
  else (vs, .error find_strict_call_error)

/-- `Versions.__iter__` (lines 125-132): the generator sorts
`self._data.values()` — the per-component version dicts themselves — and the
key function evaluates `info.version` on such a dict, raising
`AttributeError` as soon as the registry has at least one component.  An
empty registry yields nothing.  The embedding is the result of draining the
(lazy) generator. -/
def Versions.iterList (vs : Versions) : Except PyErr (List VersionInfo) :=
  if vs.data.isEmpty then .ok [] else .error (.attributeError "version")

/-- `Versions.to_json`: `[i.to_json() for i in iter(self)]`, a JSON array. -/
def Versions.to_json (vs : Versions) : Except PyErr PyVal := do
  let entries ← vs.iterList
  pure (.list (entries.map VersionInfo.to_json))

/-- `Versions.from_json(cls, data)` (lines 100-113): iterates
`data.items()` — raising `AttributeError` for a non-dict argument such as the
array `to_json` emits — and replays each component's entries through
`VersionInfo.from_json`, the (miscalling) `_ensure_unique_aliases`, and a
dict store.  The Python set `version.aliases` is iterated in the embedding's
sorted order, which can only affect which colliding alias is reported
first. -/
def Versions.from_json (data : PyVal) : Except PyErr Versions :=
  match data with
  | .dict items =>
      items.foldlM (fun (vs : Versions) p => do
        let component := p.1
        let vs : Versions :=
          ⟨if alistContains vs.data component then vs.data
            else alistSet vs.data component []⟩
        match p.2 with
        | .list versionList =>
            versionList.foldlM (fun (vs : Versions) version_data => do
              let version ← VersionInfo.from_json version_data
              let version_str := version.version
              let _ ← vs.ensure_unique_aliases component version_str
                (aliasList version.aliases) false
              pure (⟨alistModify vs.data component (fun b =>
                alistSet b version_str version)⟩ : Versions)) vs
        | _ => .error (.typeError "component value is not iterable entries")) Versions.init
  | _ => .error (.attributeError "items")

/-- `json.loads(json.dumps(v))` is the identity on JSON-compatible values
(the 2-space pretty-printing of `dumps` only affects whitespace), so
`Versions.dumps` is modelled by the `PyVal` its text would denote. -/
def Versions.dumps (vs : Versions) : Except PyErr PyVal :=
  vs.to_json

/-- `Versions.loads(cls, data)`: `from_json` after `json.loads`. -/
def Versions.loads (v : PyVal) : Except PyErr Versions :=
  Versions.from_json v

/-- The round trip `Versions.loads(Versions.dumps(registry))`. -/
def Versions.loadsDumps (vs : Versions) : Except PyErr Versions := do
  Versions.loads (← vs.dumps)

/-! ### Spec-side predicates and concrete scenarios -/

/-- Pairwise disjointness of the alias sets of distinct entries of a
component bucket. -/
def pairwiseDisjointAliases : List (String × VersionInfo) → Bool
  | [] => true
  | p :: rest =>
      rest.all (fun q => (p.2.aliases ∩ q.2.aliases).card == 0) &&
      pairwiseDisjointAliases rest

/-- The per-component invariant stated by the SPEC (not by the code): no
string is simultaneously a primary identifier and an alias within the
component, and no alias belongs to two different entries. -/
def specComponentInvariant (bucket : List (String × VersionInfo)) : Bool :=
  (bucket.all fun p => bucket.all fun q => decide (p.1 ∉ q.2.aliases)) &&
  pairwiseDisjointAliases bucket

/-- A well-formed one-component registry: component `c` holds entry `1.0`
with alias `latest`.  (This is the state the spec's §8 scenario reaches after
`add(c, "1.0", aliases=["latest"])`.) -/
def sampleRegistry : Versions :=
  ⟨[("c", [("1.0",
    { version := "1.0", title := "1.0", aliases := {"latest"},
      properties := .none })])]⟩

/-- C1 scenario, first operation: `add("c", "c", aliases=["x"])` on the empty
registry (the alias check of `_ensure_unique_aliases` is skipped because the
looked-up key equals the version string). -/
def c1Step1 : Versions × Except PyErr VersionInfo :=
  Versions.add Versions.init "c" "c" Option.none ["x"] false

/-- C1 scenario, second operation: `add("c", "x")`, making the string `x`
a primary identifier while it is still an alias of entry `c`. -/
def c1Step2 : Versions × Except PyErr VersionInfo :=
  Versions.add c1Step1.1 "c" "x" Option.none [] false

/-- The bucket of component `c` after the C1 scenario. -/
def c1Bucket : List (String × VersionInfo) :=
  (alistGet? c1Step2.1.data "c").getD []

/-- C2 scenario: `add("docs", "1.0")` on the empty registry. -/
def c2Added : Versions × Except PyErr VersionInfo :=
  Versions.add Versions.init "docs" "1.0" Option.none [] false

/-- C7 scenario: `add("docs", "2.0")`, `add("docs", "1.0")`,
`add("docs", "dev")` on the empty registry, in that order. -/
def c7Step1 : Versions × Except PyErr VersionInfo :=
  Versions.add Versions.init "docs" "2.0" Option.none [] false

def c7Step2 : Versions × Except PyErr VersionInfo :=
  Versions.add c7Step1.1 "docs" "1.0" Option.none [] false

def c7Step3 : Versions × Except PyErr VersionInfo :=
  Versions.add c7Step2.1 "docs" "dev" Option.none [] false

/-- Entry used to instantiate the C8 theorem. -/
def c8Entry : VersionInfo :=
  { version := "1.0", title := "one", aliases := {"a"}, properties := .none }

/-- Entry used for the C9 counterexample and witness: title `old`, no
aliases. -/
def c9Entry : VersionInfo :=
  { version := "1.0", title := "old", aliases := ∅, properties := .none }

/-- Entry used to instantiate the C10 theorem: its `properties` is the falsy
(but non-`None`) value `0`. -/
def c10Entry : VersionInfo :=
  { version := "1.0", title := "t", aliases := {"a"}, properties := .int 0 }

theorem mem_multisetAscList (m : Multiset String) (a : String) :
    a ∈ multisetAscList m ↔ a ∈ m := by
  refine Quotient.inductionOn m (fun l => ?_)
  change a ∈ l.insertionSort (· ≤ ·) ↔ a ∈ (l : Multiset String)
  rw [(l.perm_insertionSort (· ≤ ·)).mem_iff]
  exact Iff.rfl

theorem mem_aliasList (s : Finset String) (a : String) :
    a ∈ aliasList s ↔ a ∈ s :=
  mem_multisetAscList s.val a

theorem aliasList_toFinset (s : Finset String) : (aliasList s).toFinset = s := by
  ext a
  rw [List.mem_toFinset, mem_aliasList]

theorem pyStrList?_map_str (l : List String) :
    pyStrList? (l.map PyVal.str) = some l := by
  induction l with
  | nil => rfl
  | cons x xs ih => simp [pyStrList?, ih]

theorem find?_invalid_eq_none (l : List String)
    (h : ∀ a ∈ l, versionStringOk a = true) :
    l.find? (fun a => !versionStringOk a) = Option.none := by
  rw [List.find?_eq_none]
  intro a ha
  simp [h a ha]

/-! ### Claims -/

/-- C1: the claim says that after any sequence of add/update/remove
operations every component keeps its identifiers and aliases pairwise
disjoint.  The code violates it: from the empty registry,
`add("c", "c", aliases=["x"])` succeeds (the miscalled `find` makes the
collision checks vacuous when the version string equals the component name),
and `add("c", "x")` then succeeds as well, leaving `x` simultaneously an
alias of entry `c` and a primary identifier of component `c`. -/
theorem C1_invariant_violated_by_adds :
    c1Step1.2.isOk = true ∧ c1Step2.2.isOk = true ∧
    alistContains c1Bucket "x" = true ∧
    (∃ info, alistGet? c1Bucket "c" = some info ∧ "x" ∈ info.aliases) ∧
    specComponentInvariant c1Bucket = false := by
  refine ⟨rfl, rfl, rfl, ⟨⟨"c", "c", {"x"}, .none⟩, rfl, by decide⟩, by decide⟩

/-- C2: the claim says `Versions.loads(Versions.dumps(r))` succeeds and
reproduces `r` for every registry built from valid operations.  The code
cannot round-trip any registry: `to_json` emits a JSON array while
`from_json` calls `.items()` on its argument, so the round trip of even the
empty registry raises `AttributeError`; and for a nonempty registry (here the
result of one valid `add`) `dumps` itself already raises `AttributeError`
inside `__iter__`'s sort key. -/
theorem C2_roundtrip_always_fails :
    Versions.loadsDumps Versions.init = .error (.attributeError "items") ∧
    c2Added.2.isOk = true ∧
    Versions.dumps c2Added.1 = .error (.attributeError "version") ∧
    Versions.loadsDumps c2Added.1 = .error (.attributeError "version") := by
  exact ⟨rfl, rfl, rfl, rfl⟩

/-- C3: the claim says `add(c, "2.0", aliases=["latest"], allow_reassign=True)`
on a registry where entry `1.0` of component `c` owns alias `latest` moves
the alias, and with `allow_reassign=False` fails leaving the registry
unchanged.  In the code the miscalled `find` resolves `latest` to the
1-tuple `("c",)`, and the 1-tuple branch of `_ensure_unique_aliases` raises
unconditionally — so the call fails with `ValueError` *regardless* of the
reassignment flag, and no alias ever moves.  (The unchanged-registry part
does hold on both failures.) -/
theorem C3_reassign_raises_regardless_of_flag :
    (Versions.add sampleRegistry "c" "2.0" Option.none ["latest"] true).2 =
      .error (.valueError "Alias latest is already specified as a version in component c") ∧
    (Versions.add sampleRegistry "c" "2.0" Option.none ["latest"] true).1 = sampleRegistry ∧
    (Versions.add sampleRegistry "c" "2.0" Option.none ["latest"] false).2 =
      .error (.valueError "Alias latest is already specified as a version in component c") ∧
    (Versions.add sampleRegistry "c" "2.0" Option.none ["latest"] false).1 = sampleRegistry := by
  exact ⟨rfl, rfl, rfl, rfl⟩

/-- C4: the claim says bulk removal resolves all identifiers first, fails
with an error naming every unresolved identifier, and otherwise removes the
resolved ones.  In the code every call of
`self.find(component, i, strict=True)` raises `TypeError` at the call
(duplicate `strict` argument), so `difference_update` fails even when every
identifier exists — here for `["1.0"]` and for `["1.0", "nonexistent"]` on a
registry whose component `c` has entry `1.0` — and the registry is left
unchanged only because nothing at all ever runs. -/
theorem C4_bulk_removal_raises_type_error :
    Versions.difference_update sampleRegistry "c" ["1.0"] =
      (sampleRegistry, .error find_strict_call_error) ∧
    Versions.difference_update sampleRegistry "c" ["1.0", "nonexistent"] =
      (sampleRegistry, .error find_strict_call_error) := by
  exact ⟨rfl, rfl⟩

/-- C5: the claim describes `find(component, identifier, strict)` resolving
`identifier` inside `component`.  The code's `find` has no component
parameter: called with two positional arguments it looks up the COMPONENT
name among the registry keys and ignores the identifier, returning `("c",)`
both for the existing entry `1.0` and for a nonexistent identifier (the spec
requires `("1.0",)` and `None` respectively); called with `strict=True` by
keyword on top of two positional arguments it raises `TypeError`. -/
theorem C5_find_ignores_identifier :
    Versions.find_two_positional sampleRegistry "c" "1.0" =
      .ok (some (.primary "c")) ∧
    Versions.find_two_positional sampleRegistry "c" "nonexistent" =
      .ok (some (.primary "c")) ∧
    Versions.find_two_positional sampleRegistry "c" "latest" =
      .ok (some (.primary "c")) := by
  exact ⟨rfl, rfl, rfl⟩

/-- C6: the claim says `remove(component, identifier)` deletes the entry (or
strips the alias) and returns it, failing with a not-found error otherwise.
In the code the first statement of `remove` miscalls `find` with a duplicate
`strict` argument, so every call — primary identifier, alias, or missing
identifier alike — raises `TypeError` and removes nothing. -/
theorem C6_remove_raises_type_error :
    Versions.remove sampleRegistry "c" "1.0" =
      (sampleRegistry, .error find_strict_call_error) ∧
    Versions.remove sampleRegistry "c" "latest" =
      (sampleRegistry, .error find_strict_call_error) ∧
    Versions.remove sampleRegistry "c" "nonexistent" =
      (sampleRegistry, .error find_strict_call_error) := by
  exact ⟨rfl, rfl, rfl⟩

/-- C7: the claim says iteration yields `dev`, `2.0`, `1.0` after those
entries are added.  The three `add` calls do succeed, but `__iter__` sorts
the per-component dicts of `self._data` instead of the entries, and its key
function reads `.version` off a dict — so draining the iterator raises
`AttributeError` instead of yielding anything. -/
theorem C7_iteration_raises_attribute_error :
    c7Step1.2.isOk = true ∧ c7Step2.2.isOk = true ∧ c7Step3.2.isOk = true ∧
    Versions.iterList c7Step3.1 = .error (.attributeError "version") := by
  exact ⟨rfl, rfl, rfl, rfl⟩

/-- C8: for a valid alias list that does not contain the entry's own version
string, `VersionInfo.update` succeeds: the title becomes the given one (and
is preserved when the argument is `None`), the aliases become the union of
the old alias set with the new aliases (nothing is removed), and exactly the
set of genuinely new aliases is returned. -/
theorem C8_update_success (e : VersionInfo) (title : Option String)
    (aliases : List String)
    (hval : ∀ a ∈ aliases, versionStringOk a = true)
    (hid : e.version ∉ aliases) :
    e.update title aliases =
      ({ e with title := title.getD e.title,
                aliases := e.aliases ∪ aliases.toFinset },
       .ok (aliases.toFinset \ e.aliases)) := by
  have hfind := find?_invalid_eq_none aliases hval
  have hmem : e.version ∉ aliases.toFinset := by simpa using hid
  cases title with
  | none => simp [VersionInfo.update, hfind, hmem]
  | some t => simp [VersionInfo.update, hfind, hmem]

/-- Witness for C8 at a concrete input: updating the entry
`(1.0, "one", {a})` with title `new` and aliases `[b, a]` sets the title,
unions the aliases, and returns `{b}` as the newly added set. -/
theorem C8_update_success_witness :
    (∀ a ∈ ["b", "a"], versionStringOk a = true) ∧
    c8Entry.version ∉ ["b", "a"] ∧
    c8Entry.update (some "new") ["b", "a"] =
      ({ c8Entry with title := "new",
                      aliases := c8Entry.aliases ∪ (["b", "a"] : List String).toFinset },
       .ok ((["b", "a"] : List String).toFinset \ c8Entry.aliases)) :=
  ⟨by decide, by decide,
   C8_update_success c8Entry (some "new") ["b", "a"] (by decide) (by decide)⟩

/-- C9 counterexample: the claim says a call `e.update(title, aliases)` with
`str(e.identifier) ∈ aliases` fails *and leaves `e` completely unchanged,
the title included*.  At the concrete entry `(1.0, "old", {})` the call
`update("new", ["1.0"])` does raise the duplicated-version error, but the
entry's title has already been overwritten with `new`. -/
theorem C9_counterexample :
    (c9Entry.update (some "new") ["1.0"]).2 =
      .error (.valueError "duplicated version and alias") ∧
    (c9Entry.update (some "new") ["1.0"]).1.title = "new" ∧
    c9Entry.title = "old" ∧
    (c9Entry.update (some "new") ["1.0"]).1 ≠ c9Entry := by
  refine ⟨rfl, rfl, rfl, fun h => ?_⟩
  have h' := congrArg VersionInfo.title h
  exact absurd h' (by decide)

/-- C9 (amended): a call `e.update(title, aliases)` whose (valid) aliases
contain `str(e.identifier)` fails with the duplicated-version-and-alias
error and leaves `e.aliases`, `e.version` and `e.properties` unchanged; but
the title assignment happens before the check, so `e.title` is already the
supplied title (the old one only when `title` is `None`). -/
theorem C9_update_duplicate_alias (e : VersionInfo) (title : Option String)
    (aliases : List String)
    (hval : ∀ a ∈ aliases, versionStringOk a = true)
    (hid : e.version ∈ aliases) :
    e.update title aliases =
      ({ e with title := title.getD e.title },
       .error (.valueError "duplicated version and alias")) := by
  have hfind := find?_invalid_eq_none aliases hval
  have hmem : e.version ∈ aliases.toFinset := by simpa using hid
  cases title with
  | none => simp [VersionInfo.update, hfind, hmem]
  | some t => simp [VersionInfo.update, hfind, hmem]

/-- Witness for the amended C9 at a concrete input: `update("new", ["1.0"])`
on the entry `(1.0, "old", {})` raises the duplicated-version error with the
alias set untouched and the title already set to `new`. -/
theorem C9_update_duplicate_alias_witness :
    (∀ a ∈ ["1.0"], versionStringOk a = true) ∧
    c9Entry.version ∈ ["1.0"] ∧
    c9Entry.update (some "new") ["1.0"] =
      ({ c9Entry with title := "new" },
       .error (.valueError "duplicated version and alias")) :=
  ⟨by decide, by decide,
   C9_update_duplicate_alias c9Entry (some "new") ["1.0"] (by decide) (by decide)⟩

/-- C10: for every well-formed entry, `to_json` carries a `properties` key
exactly when the properties value is truthy; every falsy properties value
(`None`, `0`, `{}`, ...) produces the same JSON object as properties `None`,
and `from_json` of that output therefore reconstructs the entry with
properties `None`. -/
theorem C10_properties_key_iff_truthy (e : VersionInfo)
    (hv : versionStringOk e.version = true)
    (ha : ∀ a ∈ e.aliases, versionStringOk a = true)
    (hd : e.version ∉ e.aliases) :
    (∃ d, e.to_json = .dict d ∧
      alistContains d "properties" = e.properties.truthy) ∧
    (e.properties.truthy = false →
      e.to_json = VersionInfo.to_json { e with properties := .none } ∧
      VersionInfo.from_json e.to_json = .ok { e with properties := .none }) := by
  obtain ⟨v, t, al, pr⟩ := e
  simp only at hv ha hd
  constructor
  · cases htr : pr.truthy with
    | true =>
        refine ⟨[("version", PyVal.str v), ("title", PyVal.str t),
          ("aliases", PyVal.list ((aliasList al).map PyVal.str)),
          ("properties", pr)], ?_, ?_⟩
        · simp [VersionInfo.to_json, htr]
        · simp [alistContains, htr]
    | false =>
        refine ⟨[("version", PyVal.str v), ("title", PyVal.str t),
          ("aliases", PyVal.list ((aliasList al).map PyVal.str))], ?_, ?_⟩
        · simp [VersionInfo.to_json, htr]
        · simp [alistContains, htr]
  · intro htr
    have htr' : pr.truthy = false := htr
    have hnone : PyVal.none.truthy = false := rfl
    have hjson : VersionInfo.to_json ⟨v, t, al, pr⟩ =
        .dict [("version", PyVal.str v), ("title", PyVal.str t),
               ("aliases", PyVal.list ((aliasList al).map PyVal.str))] := by
      simp [VersionInfo.to_json, htr']
    have hfind : (aliasList al).find? (fun a => !versionStringOk a) = Option.none := by
      refine find?_invalid_eq_none _ (fun a hmem => ?_)
      exact ha a ((mem_aliasList al a).mp hmem)
    have hmem : v ∉ (aliasList al).toFinset := by
      rw [aliasList_toFinset]
      exact hd
    refine ⟨by simp [VersionInfo.to_json, htr', hnone], ?_⟩
    rw [hjson]
    simp [VersionInfo.from_json, alistGet?, pyStrList?_map_str, VersionInfo.init,
      hv, hfind, hmem, hd, aliasList_toFinset]

/-- Witness for C10 at a concrete input: the entry `(1.0, "t", {a})` with the
falsy properties value `0` serializes without a `properties` key, identically
to the same entry with properties `None`, and deserializes with properties
`None`. -/
theorem C10_properties_key_iff_truthy_witness :
    versionStringOk c10Entry.version = true ∧
    (∃ d, c10Entry.to_json = .dict d ∧
      alistContains d "properties" = c10Entry.properties.truthy) ∧
    (c10Entry.properties.truthy = false →
      c10Entry.to_json = VersionInfo.to_json { c10Entry with properties := .none } ∧
      VersionInfo.from_json c10Entry.to_json =
        .ok { c10Entry with properties := .none }) :=
  ⟨by decide,
   C10_properties_key_iff_truthy c10Entry (by decide) (by decide) (by decide)⟩
